import Mathlib

/-! Formal model of the book-record validator in src/Lab3/pydantic.py.

The repository defines a pydantic (v1) model `Book` with a nested optional
`Author`, a pre root validator `check_isbn_10_or_13`, a field validator
`isbn_10_valid`, and a `Config` with `allow_mutation = False` and
`anystr_lower = True`.  The two validators and the error payloads are
translated directly from the source; the surrounding pydantic construction
pipeline (field coercion order, optional-field defaulting, lower-casing of
text, skipping of field validators on explicit nulls, the frozen-record
`copy` operation) is modelled from the spec's description of the Record
Validator contract, since that code lives in the pydantic library and not in
this repository. -/

/-- Raw JSON-like values fed to the validator, the shapes the sample input
file can hold: null, text, number (modelled as a rational), boolean, or a
nested object. -/
inductive RawValue where
  | vNull : RawValue
  | vStr : String → RawValue
  | vNum : Rat → RawValue
  | vBool : Bool → RawValue
  | vObj : List (String × RawValue) → RawValue

/-- A raw mapping of field names to raw values, Python's `values` dict. -/
abbrev RawMapping := List (String × RawValue)

/-- Python's `key in values` membership test on the raw mapping. -/
def hasKey (values : RawMapping) (key : String) : Bool :=
  (List.lookup key values).isSome

/-- The errors construction can raise: the two custom exception classes of
src/Lab3/pydantic.py (lines 30-43) with their payloads, Python's `KeyError`
(raised by `values["title"]` when the key is absent), pydantic's generic
schema `ValidationError`, and the `TypeError` raised on assignment to a
frozen model. -/
inductive PyError where
  | isbnMissing : RawValue → String → PyError
  | isbn10Format : String → String → PyError
  | keyError : String → PyError
  | validationError : PyError
  | immutableError : PyError

/-- Message on `ISBNMissingError` (src line 68). -/
def missingMsg : String := "Document should have either an ISBN10 or ISBN13"

/-- Message on the digit-count `ISBN10FormatError` (src line 77). -/
def digitMsg : String := "ISBN10 should be 10 digits."

/-- Message on the checksum `ISBN10FormatError` (src line 86). -/
def checksumMsg : String := "ISBN10 digit sum should be divisible by 11."

/-- Embeds `Book.check_isbn_10_or_13` (src lines 62-70): the pre root
validator.  When neither `isbn_10` nor `isbn_13` is a key of the raw
mapping it raises `ISBNMissingError` carrying `values["title"]`; Python's
indexing raises `KeyError` when `title` itself is absent.  Otherwise the
mapping passes through unchanged. -/
def check_isbn_10_or_13 (values : RawMapping) : Except PyError RawMapping :=
  if !hasKey values "isbn_10" && !hasKey values "isbn_13" then
    match List.lookup "title" values with
    | some t => .error (.isbnMissing t missingMsg)
    | none => .error (.keyError "title")
  else
    .ok values

/-- The qualifying-character test of src line 75: `c in "0123456789Xx"`. -/
def qualifying (c : Char) : Bool :=
  ("0123456789Xx".data).contains c

/-- The filter of src line 75: the characters of the value that qualify,
in order; everything else (hyphens, spaces, other letters) is discarded. -/
def isbnFilter (value : String) : List Char :=
  value.data.filter qualifying

/-- Embeds `char_to_int` (src lines 79-82): `X` and `x` count as 10, any
other character as its decimal digit value. -/
def char_to_int (c : Char) : Nat :=
  if c = 'X' || c = 'x' then 10 else c.toNat - 48

/-- The weighted sum of src line 84: position `i` (from 0) carries weight
`10 - i`. -/
def checksum (chars : List Char) : Nat :=
  (chars.enum.map (fun p => (10 - p.1) * char_to_int p.2)).sum

/-- Embeds `Book.isbn_10_valid` (src lines 72-88): filter to qualifying
characters, fail with the digit-count error unless exactly 10 remain, fail
with the checksum error unless the weighted sum is divisible by 11, and
otherwise return the value unchanged. -/
def isbn_10_valid (value : String) : Except PyError String :=
  let chars := isbnFilter value
  if chars.length ≠ 10 then
    .error (.isbn10Format value digitMsg)
  else if checksum chars % 11 ≠ 0 then
    .error (.isbn10Format value checksumMsg)
  else
    .ok value

/-- Success test on a validation result. -/
def isbnOk (r : Except PyError String) : Bool :=
  match r with
  | .ok _ => true
  | .error _ => false

/-- The nested `Author` model (src lines 46-48): a plain text `name` and a
boolean `verified`, with pydantic's default per-model configuration (no
constraint and no normalization on `name`, since `Book.Config` does not
apply to the nested model). -/
structure Author where
  name : String
  verified : Bool
deriving DecidableEq, Repr

/-- The validated `Book` record (src lines 51-60). -/
structure Book where
  title : String
  author : String
  publisher : String
  price : Rat
  isbn_10 : Option String
  isbn_13 : Option String
  subtitle : Option String
  author2 : Option Author
deriving DecidableEq, Repr

/-- Modelled from the spec: the lower-casing that `anystr_lower = True`
applies to text during coercion — Python's `str.lower()`, character by
character (the inputs of interest are ASCII). -/
def pyLower (s : String) : String :=
  String.mk (s.data.map Char.toLower)

/-- Modelled from the spec: pydantic text coercion for a required `str`
field of `Book` under `anystr_lower = True` — a text value is accepted and
lower-cased, a missing or wrong-shaped value is a generic schema
violation. -/
def coerceReqStrLower : Option RawValue → Except PyError String
  | some (.vStr s) => .ok (pyLower s)
  | _ => .error .validationError

/-- Modelled from the spec: pydantic numeric coercion for the required
`float` field — a number is accepted, a missing or wrong-shaped value is a
generic schema violation. -/
def coerceReqFloat : Option RawValue → Except PyError Rat
  | some (.vNum q) => .ok q
  | _ => .error .validationError

/-- Modelled from the spec: coercion for an optional `str` field of `Book`.
An absent key defaults to no value, an explicit null is accepted as no
value, a text value is lower-cased, anything else is a schema violation. -/
def coerceOptStrLower : Option RawValue → Except PyError (Option String)
  | none => .ok none
  | some .vNull => .ok none
  | some (.vStr s) => .ok (some (pyLower s))
  | some _ => .error .validationError

/-- Modelled from the spec: the `isbn_10` field — coerced like any
optional text field of `Book` (so lower-cased first), and then, only when a
non-null value was supplied, checked by `isbn_10_valid`; an absent key or
an explicit null skips the validator entirely. -/
def coerceIsbn10 : Option RawValue → Except PyError (Option String)
  | none => .ok none
  | some .vNull => .ok none
  | some (.vStr s) => (isbn_10_valid (pyLower s)).map some
  | some _ => .error .validationError

/-- The `isbn_10` field of a raw mapping, validated. -/
def optionalIsbn10 (values : RawMapping) : Except PyError (Option String) :=
  coerceIsbn10 (List.lookup "isbn_10" values)

/-- Modelled from the spec: construction of the nested `Author` from its
raw sub-mapping, under `Author`'s own (default) configuration: `name` is
any text, unchanged; `verified` is a boolean; a missing or wrong-shaped
field is a schema violation. -/
def Author.construct (values : RawMapping) : Except PyError Author :=
  match List.lookup "name" values, List.lookup "verified" values with
  | some (.vStr n), some (.vBool b) => .ok { name := n, verified := b }
  | _, _ => .error .validationError

/-- Modelled from the spec: coercion for the optional nested `author2`
field — absent or null means no value, a nested object is validated as an
`Author`, anything else is a schema violation. -/
def coerceOptAuthor : Option RawValue → Except PyError (Option Author)
  | none => .ok none
  | some .vNull => .ok none
  | some (.vObj fields) => (Author.construct fields).map some
  | some _ => .error .validationError

/-- Modelled from the spec: the full two-phase construction of a `Book`
from a raw mapping — first the pre root validator over the raw mapping,
then each declared field in declaration order (coercion with lower-casing
of text, then the `isbn_10` field validator on a supplied non-null
value). -/
def Book.construct (values : RawMapping) : Except PyError Book := do
  let values ← check_isbn_10_or_13 values
  let title ← coerceReqStrLower (List.lookup "title" values)
  let author ← coerceReqStrLower (List.lookup "author" values)
  let publisher ← coerceReqStrLower (List.lookup "publisher" values)
  let price ← coerceReqFloat (List.lookup "price" values)
  let isbn10 ← optionalIsbn10 values
  let isbn13 ← coerceOptStrLower (List.lookup "isbn_13" values)
  let subtitle ← coerceOptStrLower (List.lookup "subtitle" values)
  let author2 ← coerceOptAuthor (List.lookup "author2" values)
  .ok { title := title, author := author, publisher := publisher, price := price,
        isbn_10 := isbn10, isbn_13 := isbn13, subtitle := subtitle, author2 := author2 }

/-- The `allow_mutation = False` switch of `Book.Config` (src line 92). -/
def allow_mutation : Bool := false

/-- An assignment to one field of a constructed `Book`: the field and the
new value. -/
inductive BookFieldAssign where
  | title : String → BookFieldAssign
  | author : String → BookFieldAssign
  | publisher : String → BookFieldAssign
  | price : Rat → BookFieldAssign
  | isbn_10 : Option String → BookFieldAssign
  | isbn_13 : Option String → BookFieldAssign
  | subtitle : Option String → BookFieldAssign
  | author2 : Option Author → BookFieldAssign

/-- The record with one field replaced (what assignment would do if it were
allowed). -/
def Book.applySet (b : Book) : BookFieldAssign → Book
  | .title v => { b with title := v }
  | .author v => { b with author := v }
  | .publisher v => { b with publisher := v }
  | .price v => { b with price := v }
  | .isbn_10 v => { b with isbn_10 := v }
  | .isbn_13 v => { b with isbn_13 := v }
  | .subtitle v => { b with subtitle := v }
  | .author2 v => { b with author2 := v }

/-- Modelled from the spec: attempting to assign a field after
construction.  pydantic's frozen-model guard checks `allow_mutation` before
touching the record: when it is off the attempt fails with the
immutability violation and the record is left as it was; the pair returned
is (outcome of the attempt, the record afterwards). -/
def Book.trySet (b : Book) (a : BookFieldAssign) : Except PyError Unit × Book :=
  if allow_mutation then (.ok (), Book.applySet b a) else (.error .immutableError, b)

/-- An optional override for each field of a `Book`, the argument of the
clone-with-overrides operation; no value means keep the original field. -/
structure BookOverrides where
  title : Option String := none
  author : Option String := none
  publisher : Option String := none
  price : Option Rat := none
  isbn_10 : Option (Option String) := none
  isbn_13 : Option (Option String) := none
  subtitle : Option (Option String) := none
  author2 : Option (Option Author) := none

/-- The empty override set: `book.copy()` with no arguments. -/
def noOverrides : BookOverrides := {}

/-- Modelled from the spec: the clone-with-overrides operation
(`books[1].copy()` at src line 105) — a new record whose every field is the
override when one is given and the original's value otherwise; the
original is not touched. -/
def Book.copy (b : Book) (o : BookOverrides) : Book :=
  { title := o.title.getD b.title,
    author := o.author.getD b.author,
    publisher := o.publisher.getD b.publisher,
    price := o.price.getD b.price,
    isbn_10 := o.isbn_10.getD b.isbn_10,
    isbn_13 := o.isbn_13.getD b.isbn_13,
    subtitle := o.subtitle.getD b.subtitle,
    author2 := o.author2.getD b.author2 }

/-- Is the result an `ISBNMissingError`? -/
def isIsbnMissing (r : Except PyError Book) : Bool :=
  match r with
  | .error (.isbnMissing _ _) => true
  | _ => false

/-- The raw mapping of the spec's Example 1: the sample record of the
source file's docstring, without the optional subtitle and author2. -/
def ex1map : RawMapping :=
  [("title", .vStr "Zero to One"), ("author", .vStr "Peter Thiel"),
   ("publisher", .vStr "Ballantine Books"), ("price", .vNum (14.29 : Rat)),
   ("isbn_10", .vStr "0753555190"), ("isbn_13", .vStr "978-0753555194")]

/-- The record Example 1 constructs: text fields lower-cased, both ISBNs
kept. -/
def ex1book : Book :=
  { title := "zero to one", author := "peter thiel", publisher := "ballantine books",
    price := (14.29 : Rat), isbn_10 := some "0753555190",
    isbn_13 := some "978-0753555194", subtitle := none, author2 := none }

/-- A raw mapping missing both ISBN keys and the title key. -/
def noTitleMap : RawMapping :=
  [("author", .vStr "Peter Thiel")]

/-- A raw mapping with a title but no ISBN key at all. -/
def noIsbnMap : RawMapping :=
  [("title", .vStr "Zero to One"), ("author", .vStr "Peter Thiel"),
   ("publisher", .vStr "Ballantine Books"), ("price", .vNum (14.29 : Rat))]

/-- A raw mapping whose only ISBN key carries an explicit null. -/
def nullIsbnMap : RawMapping :=
  [("title", .vStr "T"), ("author", .vStr "A"), ("publisher", .vStr "P"),
   ("price", .vNum 1), ("isbn_10", .vNull)]

/-- The record `nullIsbnMap` constructs: no ISBN value at all. -/
def nullIsbnBook : Book :=
  { title := "t", author := "a", publisher := "p", price := 1,
    isbn_10 := none, isbn_13 := none, subtitle := none, author2 := none }

/-- A raw mapping whose `isbn_10` contains an upper-case X (a real ISBN-10
with check character X). -/
def xIsbnMap : RawMapping :=
  [("title", .vStr "Harry Potter"), ("author", .vStr "J. K. Rowling"),
   ("publisher", .vStr "Scholastic"), ("price", .vNum 7),
   ("isbn_10", .vStr "043942089X")]

/-- The record `xIsbnMap` constructs: the stored ISBN is the lower-cased
input. -/
def xIsbnBook : Book :=
  { title := "harry potter", author := "j. k. rowling", publisher := "scholastic",
    price := 7, isbn_10 := some "043942089x", isbn_13 := none, subtitle := none,
    author2 := none }

/-- A raw mapping with a nested author2 whose name has upper-case
letters. -/
def authorCaseMap : RawMapping :=
  [("title", .vStr "Zero to One"), ("author", .vStr "Peter Thiel"),
   ("publisher", .vStr "Ballantine Books"), ("price", .vNum 1),
   ("isbn_10", .vNull),
   ("author2", .vObj [("name", .vStr "Peter Thiel"), ("verified", .vBool true)])]

/-- The record `authorCaseMap` constructs: the nested name is stored with
its case intact. -/
def authorCaseBook : Book :=
  { title := "zero to one", author := "peter thiel", publisher := "ballantine books",
    price := 1, isbn_10 := none, isbn_13 := none, subtitle := none,
    author2 := some { name := "Peter Thiel", verified := true } }

/-- A raw mapping with a nested author2 whose name is the empty string. -/
def emptyNameMap : RawMapping :=
  [("title", .vStr "Zero to One"), ("author", .vStr "Peter Thiel"),
   ("publisher", .vStr "Ballantine Books"), ("price", .vNum 1),
   ("isbn_10", .vNull),
   ("author2", .vObj [("name", .vStr ""), ("verified", .vBool true)])]

/-- The record `emptyNameMap` constructs: the empty name is accepted. -/
def emptyNameBook : Book :=
  { title := "zero to one", author := "peter thiel", publisher := "ballantine books",
    price := 1, isbn_10 := none, isbn_13 := none, subtitle := none,
    author2 := some { name := "", verified := true } }

/-- Inversion for a successful Except bind: the first step succeeded and the
continuation succeeded on its result. -/
theorem exbind_ok {e a b : Type} (x : Except e a) (f : a → Except e b) (r : b)
    (h : x >>= f = Except.ok r) : ∃ v, x = Except.ok v ∧ f v = Except.ok r := by
  change Except.bind x f = Except.ok r at h
  cases x with
  | error err => simp [Except.bind] at h
  | ok v => exact ⟨v, rfl, by simpa [Except.bind] using h⟩

/-- The pre root validator passes its input through unchanged when it
succeeds. -/
theorem check_ok_eq (values w : RawMapping)
    (h : check_isbn_10_or_13 values = .ok w) : w = values := by
  unfold check_isbn_10_or_13 at h
  split at h
  · split at h <;> simp at h
  · injection h with h
    exact h.symm

/-- The pre root validator succeeds only when one of the two ISBN keys is
present in the raw mapping. -/
theorem check_ok_hasKey (values w : RawMapping)
    (h : check_isbn_10_or_13 values = .ok w) :
    (hasKey values "isbn_10" || hasKey values "isbn_13") = true := by
  cases h1 : hasKey values "isbn_10" with
  | true => simp [h1]
  | false =>
    cases h2 : hasKey values "isbn_13" with
    | true => simp [h2]
    | false =>
      exfalso
      unfold check_isbn_10_or_13 at h
      rw [h1, h2] at h
      simp only [Bool.not_false, Bool.and_self, if_true] at h
      cases hl : List.lookup "title" values <;> rw [hl] at h <;> simp at h

/-- The field validator returns its input unchanged whenever it succeeds
(src line 88 returns `value` itself). -/
theorem isbn_10_valid_ok (v r : String) (h : isbn_10_valid v = .ok r) : r = v := by
  simp only [isbn_10_valid] at h
  split at h
  · simp at h
  · split at h
    · simp at h
    · injection h with h
      exact h.symm

/-- Inversion for a successful construction: the pre-check passed on the raw
mapping and the stored isbn_10 is exactly what the isbn_10 field validation
produced. -/
theorem construct_ok_inv (values : RawMapping) (b : Book)
    (h : Book.construct values = .ok b) :
    (hasKey values "isbn_10" || hasKey values "isbn_13") = true
    ∧ optionalIsbn10 values = .ok b.isbn_10 := by
  unfold Book.construct at h
  obtain ⟨v1, hc, hA⟩ := exbind_ok _ _ _ h
  clear h
  obtain ⟨f1, h1, hB⟩ := exbind_ok _ _ _ hA
  clear hA
  obtain ⟨f2, h2, hC⟩ := exbind_ok _ _ _ hB
  clear hB
  obtain ⟨f3, h3, hD⟩ := exbind_ok _ _ _ hC
  clear hC
  obtain ⟨f4, h4, hE⟩ := exbind_ok _ _ _ hD
  clear hD
  obtain ⟨f5, h5, hF⟩ := exbind_ok _ _ _ hE
  clear hE
  obtain ⟨f6, h6, hG⟩ := exbind_ok _ _ _ hF
  clear hF
  obtain ⟨f7, h7, hH⟩ := exbind_ok _ _ _ hG
  clear hG
  obtain ⟨f8, h8, hfin⟩ := exbind_ok _ _ _ hH
  clear hH
  have hv := check_ok_eq values v1 hc
  subst hv
  injection hfin with hfin
  subst hfin
  exact ⟨check_ok_hasKey v1 v1 hc, by simpa using h5⟩

/-- C1 counterexample: the raw mapping with only an author key is missing
both ISBN keys, yet construction does not fail with an `ISBNMissingError`
carrying the input's title — the pre-check itself crashes with a `KeyError`
looking up the absent `title` key (`values["title"]` at src line 67), so
the claim's "regardless of whether the other fields are even present" is
false. -/
theorem c1_missing_title_gives_keyerror :
    hasKey noTitleMap "isbn_10" = false ∧ hasKey noTitleMap "isbn_13" = false
    ∧ Book.construct noTitleMap = .error (.keyError "title")
    ∧ isIsbnMissing (Book.construct noTitleMap) = false :=
  ⟨rfl, rfl, rfl, rfl⟩

/-- C1 (amended): for every raw mapping that does contain the `title` key
and has neither `isbn_10` nor `isbn_13` as a key, construction fails with
`ISBNMissingError` whose title payload is the input mapping's raw `title`
value, no matter what the other fields hold. -/
theorem c1_isbn_missing_error_carries_title (values : RawMapping) (t : RawValue)
    (h1 : hasKey values "isbn_10" = false) (h2 : hasKey values "isbn_13" = false)
    (h3 : List.lookup "title" values = some t) :
    Book.construct values = .error (.isbnMissing t missingMsg) := by
  have hc : check_isbn_10_or_13 values = .error (.isbnMissing t missingMsg) := by
    unfold check_isbn_10_or_13
    rw [h1, h2, h3]
    simp
  unfold Book.construct
  rw [hc]
  rfl

/-- C1 witness: a concrete mapping with a title and no ISBN keys fails with
the `ISBNMissingError` carrying that title. -/
theorem c1_isbn_missing_error_carries_title_witness :
    Book.construct noIsbnMap = .error (.isbnMissing (.vStr "Zero to One") missingMsg) :=
  c1_isbn_missing_error_carries_title noIsbnMap (.vStr "Zero to One") rfl rfl rfl

/-- C2: for every string value reaching the ISBN-10 validator, the
digit-count `ISBN10FormatError` is raised exactly when the characters in
0-9/X/x number other than 10; the checksum `ISBN10FormatError` is raised
exactly when 10 such characters remain but the weighted sum (weights 10
down to 1, X/x as 10) is not divisible by 11; validation succeeds (value
unchanged) exactly otherwise; and the success of validation is unaffected
by interspersed non-qualifying characters such as hyphens, which are
stripped before counting. -/
theorem c2_isbn10_validation_trichotomy (s : String) :
    (isbn_10_valid s = .error (.isbn10Format s digitMsg) ↔ (isbnFilter s).length ≠ 10)
    ∧ (isbn_10_valid s = .error (.isbn10Format s checksumMsg)
        ↔ ((isbnFilter s).length = 10 ∧ checksum (isbnFilter s) % 11 ≠ 0))
    ∧ (isbn_10_valid s = .ok s
        ↔ ((isbnFilter s).length = 10 ∧ checksum (isbnFilter s) % 11 = 0))
    ∧ isbnOk (isbn_10_valid s) = isbnOk (isbn_10_valid (String.mk (isbnFilter s))) := by
  have hmsg : digitMsg ≠ checksumMsg := by decide
  have hmsg2 : checksumMsg ≠ digitMsg := by decide
  have hfix : isbnFilter (String.mk (isbnFilter s)) = isbnFilter s := by
    simp [isbnFilter, List.filter_filter]
  by_cases hl : (isbnFilter s).length = 10 <;>
    by_cases hc : checksum (isbnFilter s) % 11 = 0 <;>
      simp [isbn_10_valid, isbnOk, hl, hc, hfix, hmsg, hmsg2]

/-- C3 counterexample: a raw mapping whose `isbn_10` key is present with an
explicit null (and which has no `isbn_13`) passes the key-presence
pre-check and the validator is skipped on the null, so construction
succeeds and yields a Book carrying no ISBN value at all — the claim that
a constructed Book always holds at least one actual ISBN value is false. -/
theorem c3_explicit_null_isbn_book :
    Book.construct nullIsbnMap = .ok nullIsbnBook
    ∧ nullIsbnBook.isbn_10 = none ∧ nullIsbnBook.isbn_13 = none :=
  ⟨rfl, rfl, rfl⟩

/-- C3 (amended): what construction actually guarantees is key presence,
not value presence — for every successfully constructed Book, at least one
of the keys `isbn_10`/`isbn_13` was present in the raw mapping (possibly
with a null value). -/
theorem c3_constructed_book_has_isbn_key (values : RawMapping) (b : Book)
    (h : Book.construct values = .ok b) :
    hasKey values "isbn_10" = true ∨ hasKey values "isbn_13" = true := by
  have hk := (construct_ok_inv values b h).1
  simpa using hk

/-- C3 witness: the Example 1 mapping constructs successfully and indeed
has an ISBN key. -/
theorem c3_constructed_book_has_isbn_key_witness :
    hasKey ex1map "isbn_10" = true ∨ hasKey ex1map "isbn_13" = true :=
  c3_constructed_book_has_isbn_key ex1map ex1book rfl

/-- C4: for every raw mapping whose `isbn_10` key carries an explicit null
(with the presence pre-check satisfied and the other fields valid, here an
arbitrary `isbn_13` string), construction succeeds without any error: the
ISBN-10 checksum validator is never applied to the null (in this model the
validator is only invoked in the non-null text branch of the `isbn_10`
coercion). -/
theorem c4_null_isbn10_skips_validator (t a p s13 : String) (q : Rat) :
    Book.construct
      [("title", .vStr t), ("author", .vStr a), ("publisher", .vStr p),
       ("price", .vNum q), ("isbn_10", .vNull), ("isbn_13", .vStr s13)]
      = .ok { title := pyLower t, author := pyLower a, publisher := pyLower p,
              price := q, isbn_10 := none, isbn_13 := some (pyLower s13),
              subtitle := none, author2 := none } := rfl

/-- C5 counterexample: the valid ISBN-10 "043942089X" passes the digit and
checksum checks, yet the constructed Book stores "043942089x" — the
lower-casing of `anystr_lower = True` applies to the ISBN string like any
other text field, so the stored field is not the raw input character for
character. -/
theorem c5_isbn10_lowercased_on_construction :
    Book.construct xIsbnMap = .ok xIsbnBook
    ∧ xIsbnBook.isbn_10 = some "043942089x"
    ∧ "043942089x" ≠ "043942089X" :=
  ⟨rfl, rfl, by decide⟩

/-- C5 (amended): the validator itself passes its value through unchanged,
but construction stores the lower-cased raw input: for every successful
construction whose raw mapping supplied `isbn_10` as text, the stored
field is the lower-casing of that text (so it equals the raw input exactly
when the input has no upper-case characters). -/
theorem c5_isbn10_field_is_lowercased_input :
    (∀ (values : RawMapping) (s : String) (b : Book),
        List.lookup "isbn_10" values = some (.vStr s) →
        Book.construct values = .ok b →
        b.isbn_10 = some (pyLower s))
    ∧ (∀ v r : String, isbn_10_valid v = .ok r → r = v) := by
  refine ⟨?side1, isbn_10_valid_ok⟩
  intro values s b hl h
  have hi := (construct_ok_inv values b h).2
  unfold optionalIsbn10 at hi
  rw [hl] at hi
  simp only [coerceIsbn10] at hi
  cases hv : isbn_10_valid (pyLower s) with
  | error e => rw [hv] at hi; simp [Except.map] at hi
  | ok r =>
    rw [hv] at hi
    simp only [Except.map] at hi
    have hr := isbn_10_valid_ok _ _ hv
    subst hr
    injection hi with hi
    exact hi.symm

/-- C5 witness: the concrete mapping supplying "043942089X" constructs a
Book whose stored ISBN-10 is the lower-casing of that input. -/
theorem c5_isbn10_field_is_lowercased_input_witness :
    xIsbnBook.isbn_10 = some (pyLower "043942089X") :=
  c5_isbn10_field_is_lowercased_input.1 xIsbnMap "043942089X" xIsbnBook rfl rfl

/-- C6 counterexample: a nested author2 name keeps its upper-case letters
(the `Book.Config` lower-casing does not reach the nested `Author` model,
which has its own default configuration), and an empty author2 name is
accepted — both halves of the claim fail on the code. -/
theorem c6_author2_name_not_normalized :
    Book.construct authorCaseMap = .ok authorCaseBook
    ∧ authorCaseBook.author2 = some { name := "Peter Thiel", verified := true }
    ∧ "Peter Thiel" ≠ "peter thiel"
    ∧ Book.construct emptyNameMap = .ok emptyNameBook
    ∧ emptyNameBook.author2 = some { name := "", verified := true } :=
  ⟨rfl, rfl, by decide, rfl, rfl⟩

/-- C6 (amended): for every constructed Book with a nested author2 record,
author2.name is the raw name text unchanged — it is not case-normalized
and it may be empty, since `Author` declares `name` as plain text with no
constraint and `Book.Config` does not apply to the nested model. -/
theorem c6_author2_name_passes_through (t a p n : String) (q : Rat) (v : Bool) :
    Book.construct
      [("title", .vStr t), ("author", .vStr a), ("publisher", .vStr p),
       ("price", .vNum q), ("isbn_10", .vNull),
       ("author2", .vObj [("name", .vStr n), ("verified", .vBool v)])]
      = .ok { title := pyLower t, author := pyLower a, publisher := pyLower p,
              price := q, isbn_10 := none, isbn_13 := none, subtitle := none,
              author2 := some { name := n, verified := v } } := rfl

/-- C7: with `allow_mutation = False`, every attempted assignment to any
field of any constructed Book fails with the immutability violation, and
the record afterwards is identical to the record before. -/
theorem c7_books_are_immutable (b : Book) (a : BookFieldAssign) :
    (Book.trySet b a).1 = .error .immutableError ∧ (Book.trySet b a).2 = b :=
  ⟨rfl, rfl⟩

/-- C8: cloning a Book with no overrides yields a record equal to the
original in every field (and the operation builds a new record from the
original's fields, leaving the original untouched). -/
theorem c8_copy_no_overrides_is_identity (b : Book) :
    Book.copy b noOverrides = b := by
  cases b
  rfl

/-- C9 counterexample: the weighted checksum the validator computes for
"0753555190" is 220, not the 223 the claim states (the spec miscomputes
7 × 3 as 24), and 223 is in fact not divisible by 11. -/
theorem c9_checksum_is_not_223 :
    checksum (isbnFilter "0753555190") = 220
    ∧ (220 : Nat) ≠ 223
    ∧ 223 % 11 ≠ 0 :=
  ⟨rfl, by decide, by decide⟩

/-- C9 (amended): the Example 1 input constructs successfully (text fields
lower-cased by coercion), and the isbn_10 weighted checksum — digits
[0,7,5,3,5,5,5,1,9,0] with weights 10 down to 1 — equals 220 =
0+63+40+21+30+25+20+3+18+0, which is divisible by 11. -/
theorem c9_example1_validates_with_checksum_220 :
    Book.construct ex1map = .ok ex1book
    ∧ checksum (isbnFilter "0753555190") = 220
    ∧ 220 % 11 = 0 :=
  ⟨rfl, rfl, rfl⟩

/-- C10: the checksum accepts X and x with value 10 at any position, not
only the last: `char_to_int` maps both to 10, and the 10-character string
"X600000000", whose X sits at position 0 (weight 10, sum 154 = 11 × 14),
passes validation. -/
theorem c10_x_counts_ten_at_any_position :
    char_to_int 'X' = 10 ∧ char_to_int 'x' = 10
    ∧ isbn_10_valid "X600000000" = .ok "X600000000"
    ∧ (isbnFilter "X600000000").head? = some 'X'
    ∧ (isbnFilter "X600000000").length = 10 :=
  ⟨rfl, rfl, rfl, rfl, rfl⟩
